import Mathlib

/-!
Shallow embedding of `src/bot.py` (jibrail-bot).

Prices are modelled as exact rationals; the float value NaN (produced by
`pd.to_numeric(..., errors="coerce")`) is modelled as `none` in `Option ℚ`,
and numeric fields that are certainly finite numbers are `some q`.
Dataframes are lists of rows; index 0 (`df.iloc[0]`) is the list head.
Network effects are modelled by passing each provider's outcome as an
explicit argument.
-/

namespace Jibrail

/-- Configuration defaults from the CONFIG section of `src/bot.py`:
`START_CAPITAL = float(os.getenv("START_CAPITAL", 1000))`. -/
def START_CAPITAL : ℚ := 1000

/-- `RISK_PERCENT = float(os.getenv("RISK_PERCENT", 2))`. -/
def RISK_PERCENT : ℚ := 2

/-- `PAIR_LIST = ["EUR/USD", "GBP/USD"]` (locked). -/
def PAIR_LIST : List String := ["EUR/USD", "GBP/USD"]

/-- One dataframe row with the four OHLC columns.  A field is `none` when the
float held there is NaN (only the TwelveData coercion path can produce that);
a real finite float is `some q`. -/
structure CRow where
  open_ : Option ℚ
  high : Option ℚ
  low : Option ℚ
  close : Option ℚ
  deriving DecidableEq

instance : Inhabited CRow := ⟨⟨none, none, none, none⟩⟩

/-- A dataframe: rows in index order, head = `df.iloc[0]` (newest first on the
paths the bot builds). -/
abbrev DF := List CRow

/-- A raw OHLC cell as delivered by TwelveData: a stringy numeric that either
parses to a (finite) number or does not. -/
inductive RawField where
  | num (q : ℚ)
  | nonNumeric
  deriving DecidableEq

/-- One raw TwelveData row (`js["data"]["values"]` element). -/
structure RawRow where
  open_ : RawField
  high : RawField
  low : RawField
  close : RawField
  deriving DecidableEq

/-- One row of the Yahoo history table after `.astype(float)` succeeded,
in the provider's chronological (oldest-first) order. -/
structure YRow where
  open_ : ℚ
  high : ℚ
  low : ℚ
  close : ℚ
  deriving DecidableEq

/-- What a provider call can come to, seen from inside the `try` block:
the call raised (network error, timeout, JSON error, ...), the response
missed the expected field path (`"values" not in js.get("data", {})`,
`data is None`), or it delivered a list of rows. -/
inductive ProviderOutcome (ρ : Type) where
  | throws
  | badShape
  | rows (rs : List ρ)
  deriving DecidableEq

/-- `pd.to_numeric(x, errors="coerce")` on one cell: a parse failure becomes
NaN (`none`), never an exception. -/
def to_numeric : RawField → Option ℚ
  | .num q => some q
  | .nonNumeric => none

/-- The coercion loop of `fetch_from_twelvedata` (bot.py lines 76-77):
`for col in ("open","high","low","close"): df[col] = pd.to_numeric(df[col], errors="coerce")`.
Every field is coerced; the row itself is kept. -/
def td_coerce_row (r : RawRow) : CRow :=
  ⟨to_numeric r.open_, to_numeric r.high, to_numeric r.low, to_numeric r.close⟩

/-- `fetch_from_twelvedata` (bot.py lines 64-81).  `key` is whether
`TWELVEDATA_KEY` is non-empty.  An empty `values` list builds a dataframe
with no columns, so `df["open"]` raises KeyError, which the `except` turns
into `None`; hence `rows []` also yields `none`. -/
def fetch_from_twelvedata (key : Bool) (resp : ProviderOutcome RawRow) : Option DF :=
  if !key then none
  else
    match resp with
    | .throws => none
    | .badShape => none
    | .rows values => if values.isEmpty then none else some (values.map td_coerce_row)

/-- Conversion of one Yahoo table row into the common dataframe shape
(bot.py lines 91-97); all four columns are genuine floats here. -/
def yrowToCRow (r : YRow) : CRow :=
  ⟨some r.open_, some r.high, some r.low, some r.close⟩

/-- `fetch_from_yahoo` (bot.py lines 83-101): `None`/empty history gives
`None`; otherwise the table is re-sorted latest-first
(`data.sort_index(ascending=False)`, i.e. the reverse of the provider's
chronological order) and rebuilt with float columns. -/
def fetch_from_yahoo (resp : ProviderOutcome YRow) : Option DF :=
  match resp with
  | .throws => none
  | .badShape => none
  | .rows rows => if rows.isEmpty then none else some (rows.reverse.map yrowToCRow)

/-- `get_candle` (bot.py lines 103-108): TwelveData first (if a key is
configured), Yahoo as fallback. -/
def get_candle (key : Bool) (td : ProviderOutcome RawRow) (y : ProviderOutcome YRow) :
    Option DF :=
  match fetch_from_twelvedata key td with
  | some df => some df
  | none => fetch_from_yahoo y

/-- Accumulator loop for pandas `Series.ewm(span=s).mean()` with the default
`adjust=True`, `ignore_na=False`: walking the column in index order, `s` is
the decayed weighted sum and `w` the decayed weight sum of the numeric
entries seen so far; a NaN entry contributes nothing but still decays the
weights, and the output is NaN while no numeric entry has been seen. -/
def ewmAux (a : ℚ) (s w : ℚ) : List (Option ℚ) → List (Option ℚ)
  | [] => []
  | x :: xs =>
    let s' := (1 - a) * s + x.getD 0
    let w' := (1 - a) * w + (if x.isSome then 1 else 0)
    (if w' = 0 then none else some (s' / w')) :: ewmAux a s' w' xs

/-- `column.ewm(span=span).mean()` with smoothing factor `2/(span+1)`
(bot.py lines 120-121). -/
def ewm (span : ℚ) (xs : List (Option ℚ)) : List (Option ℚ) :=
  ewmAux (2 / (span + 1)) 0 0 xs

/-- Float `>` on possibly-NaN values: any comparison involving NaN is false. -/
def fgt : Option ℚ → Option ℚ → Bool
  | some a, some b => decide (b < a)
  | _, _ => false

inductive Direction where
  | BUY
  | SELL
  deriving DecidableEq

/-- The signal tuple `(direction, entry, sl, tp, rng, rr_text)` returned by
`analyze_pair`; `rrText` models `f"{int(RR)}:1"` by its integer part. -/
structure Signal where
  direction : Direction
  entry : Option ℚ
  sl : Option ℚ
  tp : Option ℚ
  rng : ℚ
  rrText : ℤ
  deriving DecidableEq

/-- The stop/target arithmetic of bot.py lines 129-135, branch by direction:
BUY: `sl = entry - rng`, `tp = entry + rng * RR`;
SELL: `sl = entry + rng`, `tp = entry - rng * RR`.
NaN entry propagates into NaN stops. -/
def sl_tp (direction : Direction) (entry : Option ℚ) (rng rr : ℚ) :
    Option ℚ × Option ℚ :=
  match direction with
  | .BUY => (entry.map fun e => e - rng, entry.map fun e => e + rng * rr)
  | .SELL => (entry.map fun e => e + rng, entry.map fun e => e - rng * rr)

/-- Python `int()` on a finite float truncates toward zero. -/
def int_trunc (q : ℚ) : ℤ := q.num / (q.den : ℤ)

/-- The direction decision of bot.py lines 120-124: the EMA20 and EMA50
columns are computed over the dataframe in its stored (newest-first) order,
and `row = df.iloc[0]` reads them at index 0;
`direction = "BUY" if row["EMA20"] > row["EMA50"] else "SELL"`. -/
def direction_of (df : DF) : Direction :=
  if fgt ((ewm 20 (df.map CRow.close)).headI) ((ewm 50 (df.map CRow.close)).headI)
  then Direction.BUY else Direction.SELL

/-- The volatility proxy of bot.py line 127:
`rng = max(0.0008, abs(float(df["high"].iloc[0]) - float(df["low"].iloc[0])))`.
When either cell is NaN the subtraction is NaN, and CPython's binary
`max(0.0008, nan)` keeps its first argument because `nan > 0.0008` is false. -/
def rng_of (df : DF) : ℚ :=
  match (df.headI).high, (df.headI).low with
  | some h, some l => max 0.0008 |h - l|
  | _, _ => 0.0008

/-- `analyze_pair` (bot.py lines 115-138).  The `df is None` arm of the guard
lives at the `Option DF` layer in the callers; here the guard is
`df.empty or len(df) < 60`. -/
def analyze_pair (rr : ℚ) (df : DF) : Option Signal :=
  if df.isEmpty || df.length < 60 then none
  else
    some ⟨direction_of df, (df.headI).close,
          (sl_tp (direction_of df) ((df.headI).close) (rng_of df) rr).1,
          (sl_tp (direction_of df) ((df.headI).close) (rng_of df) rr).2,
          rng_of df, int_trunc rr⟩

/-- `is_weekend_off` (bot.py lines 43-45): Python `weekday()` numbering,
Monday = 0 ... Sunday = 6; Friday (4), Saturday (5) and Sunday (6) are off. -/
def is_weekend_off (wd : ℕ) : Bool :=
  wd == 4 || wd == 5 || wd == 6

/-- One outbound Telegram message, identified by which `send` call produced
it: the signal text of `signal_scan` or the result text of `send_result`
(the rendered emoji text itself is presentation only). -/
inductive Msg where
  | signal (pair : String)
  | result (pair : String) (win : Bool)
  deriving DecidableEq

/-- The pair a message is about. -/
def Msg.pairOf : Msg → String
  | .signal p => p
  | .result p _ => p

/-- The body of the `for pair in PAIR_LIST` loop of `signal_scan`
(bot.py lines 148-175) for one pair: skip on `df is None`, skip on
`analyze_pair` returning `None`, otherwise send the signal message and,
when `DEMO_RESULT` is set, additionally the simulated result message.
`env pair` is what `get_candle(pair)` returns this cycle and `winOf pair`
the simulated coin flip. -/
def scan_pair (rr : ℚ) (demo : Bool) (winOf : String → Bool)
    (env : String → Option DF) (pair : String) : List Msg :=
  match env pair with
  | none => []
  | some df =>
    match analyze_pair rr df with
    | none => []
    | some _ => Msg.signal pair :: (if demo then [Msg.result pair (winOf pair)] else [])

/-- `signal_scan` (bot.py lines 140-175) as the list of messages it sends:
nothing at all on an off weekday, otherwise the loop over `PAIR_LIST`. -/
def signal_scan (wd : ℕ) (rr : ℚ) (demo : Bool) (winOf : String → Bool)
    (env : String → Option DF) : List Msg :=
  if is_weekend_off wd then []
  else PAIR_LIST.flatMap (scan_pair rr demo winOf env)

/-- The capital update of `send_result` (bot.py lines 177-197):
`capital += reward` on a win, `capital -= risk` on a loss. -/
def send_result_capital (win : Bool) (risk reward capital : ℚ) : ℚ :=
  if win then capital + reward else capital - risk

/-- `monthly_auto_reset` (bot.py lines 233-246) as its effect on `capital`:
the routine returns without touching capital unless the Dhaka day-of-month
is 1, and then assigns `capital = START_CAPITAL`. -/
def monthly_auto_reset (day : ℕ) (capital : ℚ) : ℚ :=
  if day ≠ 1 then capital else START_CAPITAL

/-- Modelled from the spec (not the source): the exponential moving average
the spec describes — smoothing factor `2/(span+1)`, seeded by the first
available value, evaluated at the latest candle of a chronologically
(oldest-first) ordered close series.  Kept separate from `ewm` so the
source's computation can be compared against the spec's words. -/
def emaSpec (span : ℚ) (chron : List ℚ) : Option ℚ :=
  match chron with
  | [] => none
  | x :: xs => some (xs.foldl (fun y c => (1 - 2 / (span + 1)) * y + (2 / (span + 1)) * c) x)

/-- The `outputsize=30` request parameter hard-coded in the TwelveData URL
(bot.py line 69): the primary provider is asked for at most 30 candles. -/
def outputsize : ℕ := 30

/-- Concrete frames and signals used by the closed instances below. -/
def row1 : CRow := ⟨some 1, some 1, some 1, some 1⟩

def df60 : DF := List.replicate 60 row1

def sig60 : Signal :=
  ⟨Direction.SELL, some 1, some (1 + 0.0008), some (1 - 0.0008 * 2), 0.0008, 2⟩

/-- A 60-candle frame, newest first, whose chronological closes are 59 ones
followed by a single 2: a textbook upward break, so the spec's EMA20 at the
latest candle strictly exceeds its EMA50. -/
def dfC1 : DF := ⟨some 2, some 2, some 2, some 2⟩ :: List.replicate 59 row1

def env60 : String → Option DF := fun _ => some df60

def winOf0 : String → Bool := fun _ => true

/-- A one-row TwelveData response whose fields all parse. -/
def values1 : List RawRow := [⟨.num 1, .num 1, .num 1, .num 1⟩]

/-! Helper lemmas shared by the claim theorems. -/

/-- Any ewm column starts with its first input: at index 0 the weighted sum
is the sole entry and the weight sum is 1 (or NaN stays NaN). -/
theorem ewm_head (span : ℚ) (x : Option ℚ) (xs : List (Option ℚ)) :
    (ewm span (x :: xs)).headI = x := by
  cases x with
  | none => simp [ewm, ewmAux]
  | some q => simp [ewm, ewmAux]

/-- Float `>` is irreflexive, NaN included. -/
theorem fgt_self (x : Option ℚ) : fgt x x = false := by
  cases x with
  | none => rfl
  | some q => simp [fgt]

/-- Both EMA columns agree with the close column at index 0, so the strict
comparison backing BUY never fires: the decision is SELL for every frame. -/
theorem direction_of_eq_sell (df : DF) : direction_of df = Direction.SELL := by
  cases df with
  | nil => rfl
  | cons r rest =>
    unfold direction_of
    rw [List.map_cons, ewm_head, ewm_head, fgt_self]
    rfl

/-- Unfolding of `analyze_pair` on a frame long enough to pass the guard. -/
theorem analyze_pair_eq_some (rr : ℚ) (df : DF) (h : 60 ≤ df.length) :
    analyze_pair rr df = some ⟨direction_of df, (df.headI).close,
      (sl_tp (direction_of df) ((df.headI).close) (rng_of df) rr).1,
      (sl_tp (direction_of df) ((df.headI).close) (rng_of df) rr).2,
      rng_of df, int_trunc rr⟩ := by
  have h1 : df.isEmpty = false := by
    cases df with
    | nil => simp at h
    | cons r rest => rfl
  have h2 : decide (df.length < 60) = false := by
    simp only [decide_eq_false_iff_not, Nat.not_lt]
    exact h
  unfold analyze_pair
  rw [h1, h2]
  rfl

/-- The guard of `analyze_pair`: fewer than 60 rows yields no signal. -/
theorem analyze_pair_short (rr : ℚ) (df : DF) (h : df.length < 60) :
    analyze_pair rr df = none := by
  have hc : (df.isEmpty || decide (df.length < 60)) = true := by
    simp [h]
  unfold analyze_pair
  rw [hc]
  rfl

/-- A produced signal certifies the 60-row precondition. -/
theorem analyze_pair_length (rr : ℚ) (df : DF) (sig : Signal)
    (h : analyze_pair rr df = some sig) : 60 ≤ df.length := by
  by_contra hc
  rw [analyze_pair_short rr df (by omega)] at h
  exact Option.noConfusion h

/-- A seeded EMA step leaves the seed fixed on a constant-1 run. -/
theorem foldl_ema_replicate_one (a : ℚ) (n : ℕ) :
    (List.replicate n (1 : ℚ)).foldl (fun y c => (1 - a) * y + a * c) 1 = 1 := by
  induction n with
  | zero => rfl
  | succ k ih =>
    rw [List.replicate_succ, List.foldl_cons]
    have hstep : (1 - a) * 1 + a * 1 = 1 := by ring
    rw [hstep]
    exact ih

/-- The spec's EMA at the latest candle of `dfC1`: fifty-nine chronological
closes at 1 keep the seeded average at 1, and the final close at 2 lifts it
to `1 + 2/(span+1)`. -/
theorem emaSpec_dfC1 (span : ℚ) :
    emaSpec span ((dfC1.map fun r => (r.close).getD 0).reverse)
      = some (1 + 2 / (span + 1)) := by
  have h1 : (dfC1.map fun r => (r.close).getD 0) = 2 :: List.replicate 59 1 := by
    simp [dfC1, row1, List.map_replicate]
  rw [h1]
  have h2 : ((2 : ℚ) :: List.replicate 59 1).reverse
      = List.replicate 59 (1 : ℚ) ++ [2] := by
    rw [List.reverse_cons, List.reverse_replicate]
  rw [h2]
  have h3 : List.replicate 59 (1 : ℚ) ++ [2]
      = 1 :: (List.replicate 58 (1 : ℚ) ++ [2]) := by
    rw [show (59 : ℕ) = 58 + 1 from rfl, List.replicate_succ]
    rfl
  rw [h3]
  simp only [emaSpec]
  rw [List.foldl_append, foldl_ema_replicate_one]
  simp only [List.foldl_cons, List.foldl_nil]
  ring_nf

/-- Evaluation of `analyze_pair` at the flat 60-candle frame `df60`. -/
theorem analyze_df60 : analyze_pair 2 df60 = some sig60 := by
  rw [analyze_pair_eq_some 2 df60 (by simp [df60])]
  rw [direction_of_eq_sell]
  have hrng : rng_of df60 = 0.0008 := by
    show max 0.0008 |(1 : ℚ) - 1| = 0.0008
    norm_num
  have htr : int_trunc 2 = 2 := by norm_num [int_trunc]
  have hc : (List.headI df60).close = some 1 := rfl
  simp [sig60, sl_tp, hrng, htr, hc]

/-- A pair whose fetch failed contributes no message. -/
theorem scan_pair_none (rr : ℚ) (demo : Bool) (winOf : String → Bool)
    (env : String → Option DF) (q : String) (h : env q = none) :
    scan_pair rr demo winOf env q = [] := by
  unfold scan_pair
  rw [h]

/-- Reduction of the loop body once the fetched frame is known. -/
theorem scan_pair_eq (rr : ℚ) (demo : Bool) (winOf : String → Bool)
    (env : String → Option DF) (q : String) (df : DF) (h : env q = some df) :
    scan_pair rr demo winOf env q =
      match analyze_pair rr df with
      | none => []
      | some _ => Msg.signal q :: (if demo then [Msg.result q (winOf q)] else []) := by
  unfold scan_pair
  rw [h]

/-- The loop body for a pair whose fetch and analyze both succeed. -/
theorem scan_pair_hit (rr : ℚ) (demo : Bool) (winOf : String → Bool)
    (env : String → Option DF) (q : String) (df : DF) (sig : Signal)
    (henv : env q = some df) (hsig : analyze_pair rr df = some sig) :
    scan_pair rr demo winOf env q
      = Msg.signal q :: (if demo then [Msg.result q (winOf q)] else []) := by
  rw [scan_pair_eq rr demo winOf env q df henv, hsig]

/-- Every message emitted for a pair carries that pair's name. -/
theorem mem_scan_pair_pairOf (rr : ℚ) (demo : Bool) (winOf : String → Bool)
    (env : String → Option DF) (q : String) (m : Msg)
    (hm : m ∈ scan_pair rr demo winOf env q) : m.pairOf = q := by
  cases h1 : env q with
  | none => rw [scan_pair_none rr demo winOf env q h1] at hm; simp at hm
  | some df =>
    rw [scan_pair_eq rr demo winOf env q df h1] at hm
    cases h2 : analyze_pair rr df with
    | none => rw [h2] at hm; simp at hm
    | some s =>
      rw [h2] at hm
      rcases List.mem_cons.mp hm with rfl | hm'
      · rfl
      · cases demo with
        | false => simp at hm'
        | true =>
          simp at hm'
          subst hm'
          rfl

/-- A pair's loop body sends its signal message exactly once. -/
theorem scan_pair_count_self (rr : ℚ) (demo : Bool) (winOf : String → Bool)
    (env : String → Option DF) (p : String) (df : DF) (sig : Signal)
    (henv : env p = some df) (hsig : analyze_pair rr df = some sig) :
    (scan_pair rr demo winOf env p).count (Msg.signal p) = 1 := by
  rw [scan_pair_hit rr demo winOf env p df sig henv hsig]
  cases demo <;> simp [List.count_cons]

/-- No loop body sends another pair's signal message. -/
theorem scan_pair_count_other (rr : ℚ) (demo : Bool) (winOf : String → Bool)
    (env : String → Option DF) (p q : String) (hne : p ≠ q) :
    (scan_pair rr demo winOf env q).count (Msg.signal p) = 0 := by
  rw [List.count_eq_zero]
  intro hm
  exact hne (mem_scan_pair_pairOf rr demo winOf env q _ hm)

/-- With the demo toggle off the loop body for a succeeding pair sends
exactly its one signal message. -/
theorem scan_pair_filter_self (rr : ℚ) (winOf : String → Bool)
    (env : String → Option DF) (p : String) (df : DF) (sig : Signal)
    (henv : env p = some df) (hsig : analyze_pair rr df = some sig) :
    (scan_pair rr false winOf env p).filter (fun m => m.pairOf == p)
      = [Msg.signal p] := by
  rw [scan_pair_hit rr false winOf env p df sig henv hsig]
  simp [Msg.pairOf]

/-- No loop body contributes messages about a different pair. -/
theorem scan_pair_filter_other (rr : ℚ) (demo : Bool) (winOf : String → Bool)
    (env : String → Option DF) (p q : String) (hne : p ≠ q) :
    (scan_pair rr demo winOf env q).filter (fun m => m.pairOf == p) = [] := by
  rw [List.filter_eq_nil_iff]
  intro m hm
  rw [mem_scan_pair_pairOf rr demo winOf env q m hm]
  simp [hne.symm]

/-! Claim theorems. -/

/-- C1: the spec's claim — LONG whenever the spec's EMA20 at the latest
candle strictly exceeds its EMA50 — is violated by the code.  `dfC1` is a
60-candle frame on which the spec's seeded chronological EMA20 at the latest
candle (23/21) strictly exceeds the EMA50 (53/51), yet `analyze_pair`, which
computes `ewm` over the newest-first frame and reads the columns at row 0,
still answers SELL. -/
theorem spec_ema_crossover_not_honoured :
    dfC1.length = 60
    ∧ emaSpec 20 ((dfC1.map fun r => (r.close).getD 0).reverse) = some (23 / 21)
    ∧ emaSpec 50 ((dfC1.map fun r => (r.close).getD 0).reverse) = some (53 / 51)
    ∧ (53 : ℚ) / 51 < 23 / 21
    ∧ (analyze_pair 2 dfC1).map Signal.direction = some Direction.SELL := by
  refine ⟨by simp [dfC1], ?_, ?_, by norm_num, ?_⟩
  · rw [emaSpec_dfC1]
    norm_num
  · rw [emaSpec_dfC1]
    norm_num
  · rw [analyze_pair_eq_some 2 dfC1 (by simp [dfC1])]
    simp [direction_of_eq_sell]

/-- C2: on every frame long enough to pass the guard, both EMA columns at
row 0 equal the latest close, so the strict comparison backing BUY never
holds and `analyze_pair` always answers SELL. -/
theorem analyze_always_sell (rr : ℚ) (df : DF) (h : 60 ≤ df.length) :
    (ewm 20 (df.map CRow.close)).headI = (df.headI).close
    ∧ (ewm 50 (df.map CRow.close)).headI = (df.headI).close
    ∧ (analyze_pair rr df).map Signal.direction = some Direction.SELL := by
  cases df with
  | nil => simp at h
  | cons r rest =>
    refine ⟨?_, ?_, ?_⟩
    · rw [List.map_cons, ewm_head]
      rfl
    · rw [List.map_cons, ewm_head]
      rfl
    · rw [analyze_pair_eq_some rr (r :: rest) h]
      simp [direction_of_eq_sell]

/-- C2 witness: the flat 60-candle frame `df60` passes the guard and gets
direction SELL. -/
theorem analyze_always_sell_witness :
    (ewm 20 (df60.map CRow.close)).headI = (df60.headI).close
    ∧ (ewm 50 (df60.map CRow.close)).headI = (df60.headI).close
    ∧ (analyze_pair 2 df60).map Signal.direction = some Direction.SELL :=
  analyze_always_sell 2 df60 (by simp [df60])

/-- C3 counterexample: a one-row (hence far too short) Yahoo series is
returned as a frame by `get_candle`, not turned into Unavailable. -/
theorem get_candle_short_series_cex :
    get_candle false ProviderOutcome.throws (ProviderOutcome.rows [⟨1, 2, 1, 1⟩])
      = some [CRow.mk (some 1) (some 2) (some 1) (some 1)] := rfl

/-- C3 amended: when both providers fail `get_candle` yields `none` (and an
empty secondary series counts as failing); a pair whose fetch came back
`none` is simply skipped by the scan loop, producing no message. -/
theorem get_candle_unavailable_skip (key : Bool) (td : ProviderOutcome RawRow)
    (y : ProviderOutcome YRow) (rr : ℚ) (demo : Bool) (winOf : String → Bool)
    (env : String → Option DF) (pair : String)
    (htd : fetch_from_twelvedata key td = none)
    (hy : fetch_from_yahoo y = none)
    (henv : env pair = none) :
    get_candle key td y = none
    ∧ fetch_from_yahoo (ProviderOutcome.rows ([] : List YRow)) = none
    ∧ scan_pair rr demo winOf env pair = [] := by
  refine ⟨?_, rfl, scan_pair_none rr demo winOf env pair henv⟩
  unfold get_candle
  rw [htd]
  exact hy

/-- C3 witness: both providers raising, and the pair skipped. -/
theorem get_candle_unavailable_skip_witness :
    get_candle true ProviderOutcome.throws (ProviderOutcome.throws : ProviderOutcome YRow)
        = none
    ∧ fetch_from_yahoo (ProviderOutcome.rows ([] : List YRow)) = none
    ∧ scan_pair 2 false winOf0 (fun _ => none) "EUR/USD" = [] :=
  get_candle_unavailable_skip true ProviderOutcome.throws ProviderOutcome.throws
    2 false winOf0 (fun _ => none) "EUR/USD" rfl rfl rfl

/-- C4: a usable TwelveData response of at most the requested 30 rows is
handed over unchanged (Yahoo is never consulted), and being shorter than the
60-row window it can never yield a signal. -/
theorem twelvedata_success_never_signals (values : List RawRow)
    (y y' : ProviderOutcome YRow) (rr : ℚ)
    (hne : values ≠ []) (hsize : values.length ≤ outputsize) :
    get_candle true (ProviderOutcome.rows values) y = some (values.map td_coerce_row)
    ∧ (values.map td_coerce_row).length ≤ 30
    ∧ analyze_pair rr (values.map td_coerce_row) = none
    ∧ get_candle true (ProviderOutcome.rows values) y
        = get_candle true (ProviderOutcome.rows values) y' := by
  have hfetch : fetch_from_twelvedata true (ProviderOutcome.rows values)
      = some (values.map td_coerce_row) := by
    simp [fetch_from_twelvedata, hne]
  have hlen : (values.map td_coerce_row).length ≤ 30 := by
    rw [List.length_map]
    exact hsize
  refine ⟨?_, hlen, ?_, ?_⟩
  · unfold get_candle
    rw [hfetch]
  · exact analyze_pair_short rr _ (by omega)
  · unfold get_candle
    rw [hfetch]

/-- C4 witness: a one-row TwelveData response; the Yahoo argument is
irrelevant. -/
theorem twelvedata_success_never_signals_witness :
    get_candle true (ProviderOutcome.rows values1) ProviderOutcome.throws
        = some (values1.map td_coerce_row)
    ∧ (values1.map td_coerce_row).length ≤ 30
    ∧ analyze_pair 2 (values1.map td_coerce_row) = none
    ∧ get_candle true (ProviderOutcome.rows values1) ProviderOutcome.throws
        = get_candle true (ProviderOutcome.rows values1) ProviderOutcome.badShape :=
  twelvedata_success_never_signals values1 ProviderOutcome.throws ProviderOutcome.badShape
    2 (by simp [values1]) (by simp [values1, outputsize])

/-- C5 counterexample: a row whose `open` fails numeric coercion is kept in
the returned series (its cell becomes NaN); it is not dropped. -/
theorem coercion_keeps_failed_row_cex :
    fetch_from_twelvedata true (ProviderOutcome.rows
        [⟨RawField.nonNumeric, RawField.num 2, RawField.num 1, RawField.num 1⟩])
      = some [CRow.mk none (some 2) (some 1) (some 1)] := rfl

/-- C5 amended: every OHLC field goes through `to_numeric` coercion, failures
become NaN cells, and the returned series keeps exactly the provider's rows;
the fetch as a whole does not fail. -/
theorem twelvedata_coercion_keeps_rows (values : List RawRow) (hne : values ≠ []) :
    fetch_from_twelvedata true (ProviderOutcome.rows values)
      = some (values.map fun r =>
          CRow.mk (to_numeric r.open_) (to_numeric r.high)
            (to_numeric r.low) (to_numeric r.close))
    ∧ (values.map fun r =>
          CRow.mk (to_numeric r.open_) (to_numeric r.high)
            (to_numeric r.low) (to_numeric r.close)).length = values.length := by
  refine ⟨?_, List.length_map values _⟩
  simp [fetch_from_twelvedata, td_coerce_row, hne]

/-- C5 witness: the all-parsing one-row response. -/
theorem twelvedata_coercion_keeps_rows_witness :
    fetch_from_twelvedata true (ProviderOutcome.rows values1)
      = some (values1.map fun r =>
          CRow.mk (to_numeric r.open_) (to_numeric r.high)
            (to_numeric r.low) (to_numeric r.close))
    ∧ (values1.map fun r =>
          CRow.mk (to_numeric r.open_) (to_numeric r.high)
            (to_numeric r.low) (to_numeric r.close)).length = values1.length :=
  twelvedata_coercion_keeps_rows values1 (by simp [values1])

/-- C6 counterexample: calling the reset routine on day 5 of the month with
capital 500 leaves 500 in place — it does not restore the starting value,
because the day-of-month trigger lives inside the routine itself. -/
theorem monthly_reset_gated_cex :
    monthly_auto_reset 5 500 = 500 ∧ monthly_auto_reset 5 500 ≠ START_CAPITAL := by
  constructor
  · norm_num [monthly_auto_reset]
  · norm_num [monthly_auto_reset, START_CAPITAL]

/-- C6 amended: `monthly_auto_reset` restores `START_CAPITAL` exactly when
the day-of-month is 1 — then irrespective of the prior capital — and leaves
the capital untouched on every other day. -/
theorem monthly_reset_behaviour (day : ℕ) (capital : ℚ) :
    monthly_auto_reset day capital
      = if day = 1 then START_CAPITAL else capital := by
  unfold monthly_auto_reset
  by_cases h : day = 1 <;> simp [h]

/-- C7: a win adds exactly the reward, a loss subtracts exactly the risk,
with the spec's concrete instances from capital 1000, and no floor — the
capital can go negative. -/
theorem send_result_capital_update (capital risk reward : ℚ) :
    send_result_capital true risk reward capital = capital + reward
    ∧ send_result_capital false risk reward capital = capital - risk
    ∧ send_result_capital true 20 40 1000 = 1040
    ∧ send_result_capital false 20 40 1000 = 980
    ∧ send_result_capital false 20 40 10 < 0 := by
  refine ⟨rfl, rfl, by norm_num [send_result_capital],
    by norm_num [send_result_capital], by norm_num [send_result_capital]⟩

/-- C8: the stops of every produced signal follow the branch formulas —
LONG: `sl = entry - rng`, `tp = entry + rng * RR`; SHORT: `sl = entry + rng`,
`tp = entry - rng * RR` — and the spec's concrete LONG instance with RR = 2,
entry 1.10000, proxy 0.0010 gives `sl = 1.09900`, `tp = 1.10200`. -/
theorem sl_tp_formulas (rr : ℚ) (df : DF) (sig : Signal)
    (h : analyze_pair rr df = some sig) :
    (sig.direction = Direction.BUY →
        sig.sl = sig.entry.map (fun e => e - sig.rng)
        ∧ sig.tp = sig.entry.map (fun e => e + sig.rng * rr))
    ∧ (sig.direction = Direction.SELL →
        sig.sl = sig.entry.map (fun e => e + sig.rng)
        ∧ sig.tp = sig.entry.map (fun e => e - sig.rng * rr))
    ∧ sl_tp Direction.BUY (some 1.1) 0.001 2 = (some 1.099, some 1.102) := by
  have hlen := analyze_pair_length rr df sig h
  rw [analyze_pair_eq_some rr df hlen] at h
  obtain rfl : sig = _ := (Option.some.inj h).symm
  rw [direction_of_eq_sell]
  refine ⟨?_, ?_, ?_⟩
  · intro hd
    exact absurd hd (by simp)
  · intro _
    constructor <;> simp [sl_tp]
  · simp only [sl_tp, Option.map_some']
    norm_num

/-- C8 witness: the SELL formulas at the concrete signal of `df60`, and the
spec's LONG arithmetic instance. -/
theorem sl_tp_formulas_witness :
    (sig60.sl = sig60.entry.map (fun e => e + sig60.rng)
     ∧ sig60.tp = sig60.entry.map (fun e => e - sig60.rng * 2))
    ∧ sl_tp Direction.BUY (some 1.1) 0.001 2 = (some 1.099, some 1.102) :=
  ⟨(sl_tp_formulas 2 df60 sig60 analyze_df60).2.1 rfl,
   (sl_tp_formulas 2 df60 sig60 analyze_df60).2.2⟩

/-- C9: the volatility proxy of every produced signal is
`max(0.0008, |latestHigh - latestLow|)` and never drops below the 0.0008
floor. -/
theorem volatility_proxy_floor (rr : ℚ) (df : DF) (sig : Signal) (h0 l0 : ℚ)
    (h : analyze_pair rr df = some sig)
    (hh : (df.headI).high = some h0) (hl : (df.headI).low = some l0) :
    sig.rng = max 0.0008 |h0 - l0| ∧ (0.0008 : ℚ) ≤ sig.rng := by
  have hlen := analyze_pair_length rr df sig h
  rw [analyze_pair_eq_some rr df hlen] at h
  obtain rfl : sig = _ := (Option.some.inj h).symm
  have hr : rng_of df = max 0.0008 |h0 - l0| := by
    unfold rng_of
    rw [hh, hl]
  refine ⟨hr, ?_⟩
  show (0.0008 : ℚ) ≤ rng_of df
  rw [hr]
  exact le_max_left _ _

/-- C9 witness: the flat candle at the head of `df60` has high = low, and
the proxy sits exactly at the floor. -/
theorem volatility_proxy_floor_witness :
    sig60.rng = max 0.0008 |(1 : ℚ) - 1| ∧ (0.0008 : ℚ) ≤ sig60.rng :=
  volatility_proxy_floor 2 df60 sig60 1 1 analyze_df60 rfl rfl

/-- C10: on the three off weekdays (Friday 4, Saturday 5, Sunday 6) the scan
sends nothing regardless of the data environment; on any other weekday a
pair whose fetch and analyze succeed gets its signal message exactly once,
and with the demo toggle off that one signal is the only message about the
pair. -/
theorem weekday_gate_scan (wd : ℕ) (rr : ℚ) (demo : Bool) (winOf : String → Bool)
    (env : String → Option DF) (pair : String) (df : DF) (sig : Signal)
    (hmem : pair ∈ PAIR_LIST) (henv : env pair = some df)
    (hsig : analyze_pair rr df = some sig) :
    (is_weekend_off wd = true → signal_scan wd rr demo winOf env = [])
    ∧ (is_weekend_off wd = false →
        (signal_scan wd rr demo winOf env).count (Msg.signal pair) = 1)
    ∧ (is_weekend_off wd = false → demo = false →
        (signal_scan wd rr demo winOf env).filter (fun m => m.pairOf == pair)
          = [Msg.signal pair]) := by
  have hmem' : pair = "EUR/USD" ∨ pair = "GBP/USD" := by
    simpa [PAIR_LIST] using hmem
  refine ⟨?_, ?_, ?_⟩
  · intro hoff
    simp [signal_scan, hoff]
  · intro hoff
    simp only [signal_scan, hoff, Bool.false_eq_true, if_false, PAIR_LIST,
      List.flatMap_cons, List.flatMap_nil, List.append_nil, List.count_append]
    rcases hmem' with rfl | rfl
    · rw [scan_pair_count_self rr demo winOf env _ df sig henv hsig,
        scan_pair_count_other rr demo winOf env _ "GBP/USD" (by decide)]
    · rw [scan_pair_count_other rr demo winOf env _ "EUR/USD" (by decide),
        scan_pair_count_self rr demo winOf env _ df sig henv hsig]
  · intro hoff hdemo
    subst hdemo
    simp only [signal_scan, hoff, Bool.false_eq_true, if_false, PAIR_LIST,
      List.flatMap_cons, List.flatMap_nil, List.append_nil, List.filter_append]
    rcases hmem' with rfl | rfl
    · rw [scan_pair_filter_self rr winOf env _ df sig henv hsig,
        scan_pair_filter_other rr false winOf env _ "GBP/USD" (by decide)]
      rfl
    · rw [scan_pair_filter_other rr false winOf env _ "EUR/USD" (by decide),
        scan_pair_filter_self rr winOf env _ df sig henv hsig]
      rfl

/-- C10 witness: Saturday (weekday 5) silences the scan under a data-rich
environment; Monday (weekday 0) yields exactly one EUR/USD signal message. -/
theorem weekday_gate_scan_witness :
    signal_scan 5 2 false winOf0 env60 = []
    ∧ (signal_scan 0 2 false winOf0 env60).count (Msg.signal "EUR/USD") = 1
    ∧ (signal_scan 0 2 false winOf0 env60).filter (fun m => m.pairOf == "EUR/USD")
        = [Msg.signal "EUR/USD"] :=
  ⟨(weekday_gate_scan 5 2 false winOf0 env60 "EUR/USD" df60 sig60
      (by simp [PAIR_LIST]) rfl analyze_df60).1 rfl,
   (weekday_gate_scan 0 2 false winOf0 env60 "EUR/USD" df60 sig60
      (by simp [PAIR_LIST]) rfl analyze_df60).2.1 rfl,
   (weekday_gate_scan 0 2 false winOf0 env60 "EUR/USD" df60 sig60
      (by simp [PAIR_LIST]) rfl analyze_df60).2.2 rfl rfl⟩

end Jibrail
